import Mathlib

/-!
Verification development for `escposimg` (`src/reference/print_image.py`),
a script that prints an image to a network ESC/POS printer.

The script's pure logic is embedded shallowly:

* `Bitmap` / `normalize` embed the image-preparation lines 36-45 of
  `print_image_to_network_printer`: the RGB conversion, the width check,
  `ratio = max_width / img.width`, `new_height = int(img.height * ratio)`
  and `img.resize((max_width, new_height), LANCZOS)`.  Python's `int()` on a
  product of non-negative values truncates, which over exact arithmetic on
  natural numbers is `Nat` floor division; `Image.resize` in Pillow raises
  `ValueError` when either requested dimension is below 1, and a zero source
  width raises `ZeroDivisionError` at the `ratio` line.  Float rounding of
  the two-step product is abstracted to the exact rational, truncated.
* `printImageToNetworkPrinter` embeds the control flow of the whole
  function (lines 25-73) as a trace of externally visible effects driven by
  an environment that decides which fallible library calls succeed.
* `encode` models the ESC/POS raster encoder of the `python-escpos`
  library (called as `printer.image(img)`), which is outside this
  repository's sources, from the specification of the raster command.
-/

namespace EscposImg

/-- A decoded image as the script sees it: PIL dimensions (always
non-negative naturals) and a colour mode string. -/
structure Bitmap where
  width : Nat
  height : Nat
  mode : String
deriving DecidableEq, Repr

/-- The exceptions the image-preparation lines can raise.
`zeroDivisionError` comes from `ratio = max_width / img.width` when the
source width is zero; `resizeValueError` is Pillow's `ValueError` from
`Image.resize` when a requested dimension is below 1. -/
inductive PrintError where
  | zeroDivisionError
  | resizeValueError
deriving DecidableEq, Repr

/-- Lines 36-37: `if img.mode != 'RGB': img = img.convert('RGB')`. -/
def convertRGB (bm : Bitmap) : Bitmap :=
  if bm.mode ≠ "RGB" then { bm with mode := "RGB" } else bm

/-- Pillow's `Image.resize((w, h), ...)`: raises `ValueError` unless both
requested dimensions are at least 1, otherwise yields an image of exactly
the requested dimensions. -/
def pyResize (bm : Bitmap) (w h : Nat) : Except PrintError Bitmap :=
  if w < 1 ∨ h < 1 then .error .resizeValueError
  else .ok { bm with width := w, height := h }

/-- Lines 36-45 of `print_image_to_network_printer`: convert to RGB, then,
when the width differs from `max_width`, compute
`new_height = int(img.height * (max_width / img.width))` (exact value
`img.height * maxWidth / img.width` with truncating division) and resize
to `(max_width, new_height)`. -/
def normalize (bm : Bitmap) (maxWidth : Nat) : Except PrintError Bitmap :=
  let img := convertRGB bm
  if img.width ≠ maxWidth then
    if img.width = 0 then .error .zeroDivisionError
    else pyResize img maxWidth (img.height * maxWidth / img.width)
  else .ok img

example : normalize ⟨1152, 800, "RGB"⟩ 576 = .ok ⟨576, 400, "RGB"⟩ := rfl
example : normalize ⟨3, 1, "RGB"⟩ 5 = .ok ⟨5, 1, "RGB"⟩ := rfl
example : normalize ⟨576, 0, "RGB"⟩ 576 = .ok ⟨576, 0, "RGB"⟩ := rfl
example : normalize ⟨0, 5, "RGB"⟩ 576 = .error .zeroDivisionError := rfl
example : normalize ⟨3, 1, "L"⟩ 2 = .error .resizeValueError := rfl

/-! ### The session: control flow of `print_image_to_network_printer` -/

/-- Externally visible effects of one invocation of
`print_image_to_network_printer`.  `socketOpen` marks a successfully
established TCP connection (a `Network(...)` constructor that returned),
`profileWarning` the `"Warning: Profile ... not found"` message printed by
the inner `except` branch, the three `write*` events the successful calls
`printer.image(img)`, `printer.ln(1)` and `printer.cut()`, and
`socketClose` the `printer.close()` call. -/
inductive Event where
  | existsCheck
  | imageOpen
  | socketOpen
  | profileWarning
  | writeRaster
  | writeLn
  | writeCut
  | socketClose
deriving DecidableEq, Repr

/-- The outcomes of the fallible library calls made by one invocation:
whether `Path(image_path).exists()` is true, whether `Image.open`
succeeds (and what bitmap it yields), whether the profile lookup inside
`Network(ip, port, profile=...)` recognises the profile, whether the TCP
connect to `ip:port` succeeds, and whether each of the three socket
writes succeeds.  `maxWidth` is the `max_width` argument. -/
structure Env where
  fileExists : Bool
  openOk : Bool
  bitmap : Bitmap
  profileKnown : Bool
  connectOk : Bool
  writeRasterOk : Bool
  writeLnOk : Bool
  writeCutOk : Bool
  maxWidth : Nat
deriving DecidableEq, Repr

/-- Lines 49-53: `printer = Network(ip, port=port, profile=profile)` inside
a `try` whose `except` catches any exception, prints the profile warning
and retries as `printer = Network(ip, port=port)`.  An unknown profile
raises during profile resolution, before any socket exists; a connect
failure raises after, and a second attempt against the same target fails
the same way, so the `ConnectionError` of the fallback propagates.
Returns the events and whether a connection was established. -/
def connectPrinter (env : Env) : List Event × Bool :=
  if env.profileKnown && env.connectOk then ([.socketOpen], true)
  else if env.connectOk then ([.profileWarning, .socketOpen], true)
  else ([.profileWarning], false)

/-- Lines 25-73 of `print_image_to_network_printer` as a trace semantics:
the whole body sits in a `try` whose `except ConnectionError` and
`except Exception` handlers both print a message and `return False`, so
every failure of a modelled step ends the trace with result `false`.
`printer.close()` (line 62) is reached only after all three writes
succeed. -/
def printImageToNetworkPrinter (env : Env) : List Event × Bool :=
  if !env.fileExists then ([.existsCheck], false)
  else if !env.openOk then ([.existsCheck, .imageOpen], false)
  else
    match normalize env.bitmap env.maxWidth with
    | .error _ => ([.existsCheck, .imageOpen], false)
    | .ok _img =>
      let conn := connectPrinter env
      let pre := Event.existsCheck :: Event.imageOpen :: conn.1
      if !conn.2 then (pre, false)
      else if !env.writeRasterOk then (pre, false)
      else if !env.writeLnOk then (pre ++ [.writeRaster], false)
      else if !env.writeCutOk then (pre ++ [.writeRaster, .writeLn], false)
      else (pre ++ [.writeRaster, .writeLn, .writeCut, .socketClose], true)

/-- `main` (lines 76-118): runs the print and exits with
`sys.exit(0 if success else 1)`. -/
def mainExitCode (env : Env) : Nat :=
  if (printImageToNetworkPrinter env).2 then 0 else 1

/-- The events that write payload bytes to the printer socket. -/
def isWrite : Event → Bool
  | .writeRaster => true
  | .writeLn => true
  | .writeCut => true
  | _ => false

/-! ### The ESC/POS raster encoder (external library, modelled) -/

/-- A monochrome view of a bitmap handed to the encoder: dimensions plus a
predicate telling whether the pixel at column `x`, row `y` is printed
(dark). -/
structure MonoBitmap where
  width : Nat
  height : Nat
  px : Nat → Nat → Bool

/-- Modelled from the spec: the failures of the raster encoder — zero-size
input, or packed row width / row count exceeding the 16-bit header
fields. -/
inductive EncodingError where
  | zeroSize
  | overflow
deriving DecidableEq, Repr

/-- Modelled from the spec: the header bytes selecting raster bit-image
mode (ESC/POS `GS v 0 m` with normal density). -/
def rasterHeader : List Nat := [29, 118, 48, 0]

/-- Bytes needed for one pixel row at 8 pixels per byte: `ceil(width/8)`. -/
def packedRowWidth (w : Nat) : Nat := (w + 7) / 8

/-- Modelled from the spec: byte number `b` of row `y` packs pixels
`8*b .. 8*b+7` most-significant bit first, a set bit meaning printed, with
positions at or beyond `width` padded as non-printed. -/
def packByte (px : Nat → Nat → Bool) (w y b : Nat) : Nat :=
  (List.range 8).foldl
    (fun acc i => 2 * acc + (if 8 * b + i < w && px (8 * b + i) y then 1 else 0)) 0

/-- Modelled from the spec: the packed bytes of row `y`. -/
def packRow (bm : MonoBitmap) (y : Nat) : List Nat :=
  (List.range (packedRowWidth bm.width)).map (packByte bm.px bm.width y)

/-- Modelled from the spec: the ESC/POS raster encoder implemented by the
`python-escpos` library's `printer.image`, which is not part of this
repository's sources.  Fails with `EncodingError` on a zero dimension or a
16-bit field overflow; otherwise emits the command header, the packed row
width and the row count as little-endian byte pairs, then the packed rows
top first. -/
def encode (bm : MonoBitmap) : Except EncodingError (List Nat) :=
  if bm.width = 0 ∨ bm.height = 0 then .error .zeroSize
  else if 65535 < packedRowWidth bm.width ∨ 65535 < bm.height then .error .overflow
  else .ok (rasterHeader ++
    [packedRowWidth bm.width % 256, packedRowWidth bm.width / 256,
     bm.height % 256, bm.height / 256] ++
    (List.range bm.height).flatMap (packRow bm))

/-! ### Helper lemmas -/

theorem convertRGB_mode (bm : Bitmap) : (convertRGB bm).mode = "RGB" := by
  unfold convertRGB
  split
  · rfl
  · next h => exact not_not.mp h

theorem convertRGB_width (bm : Bitmap) : (convertRGB bm).width = bm.width := by
  unfold convertRGB
  split <;> rfl

theorem convertRGB_height (bm : Bitmap) : (convertRGB bm).height = bm.height := by
  unfold convertRGB
  split <;> rfl

theorem normalize_ok_inv (bm : Bitmap) (mw : Nat) (b : Bitmap)
    (h : normalize bm mw = Except.ok b) : b.width = mw ∧ b.mode = "RGB" := by
  unfold normalize pyResize at h
  simp only [] at h
  split at h
  · split at h
    · exact absurd h (by simp)
    · split at h
      · exact absurd h (by simp)
      · rw [Except.ok.injEq] at h
        subst h
        exact ⟨rfl, convertRGB_mode bm⟩
  · next hcond =>
    rw [Except.ok.injEq] at h
    subst h
    exact ⟨not_not.mp hcond, convertRGB_mode bm⟩

theorem normalize_fixed (b : Bitmap) (mw : Nat) (hw : b.width = mw)
    (hm : b.mode = "RGB") : normalize b mw = Except.ok b := by
  unfold normalize convertRGB
  simp [hm, hw]

/-! ### Claim theorems -/

/-- C1 (counterexample): for the 3×1 input with maxWidth 5, the code's
normalization yields height `int(1 * (5/3)) = 1`, while the claim demands
`round(1 * 5 / 3) = 2`, so the claim as stated is false. -/
theorem c1_round_counterexample :
    normalize ⟨3, 1, "RGB"⟩ 5 = Except.ok ⟨5, 1, "RGB"⟩ ∧
    ((5 : ℚ) / 3 = (1 * 5 : ℚ) / 3) ∧ round ((5 : ℚ) / 3) = 2 ∧
    (Bitmap.mk 5 1 "RGB").height ≠ 2 := by
  refine ⟨rfl, by norm_num, ?_, by decide⟩
  rw [round_eq]
  norm_num

/-- C1 (amended): when the width differs from maxWidth and the truncated
height `⌊oldHeight * maxWidth / oldWidth⌋` is positive, normalize yields
width = maxWidth and that truncated (not rounded) height. -/
theorem normalize_scales (bm : Bitmap) (mw : Nat) (hw : 0 < bm.width)
    (hne : bm.width ≠ mw) (hmw : 0 < mw)
    (hpos : 0 < bm.height * mw / bm.width) :
    ∃ b, normalize bm mw = Except.ok b ∧ b.width = mw ∧
      b.height = bm.height * mw / bm.width := by
  refine ⟨⟨mw, bm.height * mw / bm.width, "RGB"⟩, ?_, rfl, rfl⟩
  unfold normalize pyResize
  simp only [convertRGB_width, convertRGB_height]
  rw [if_pos hne, if_neg hw.ne', if_neg]
  · rw [Except.ok.injEq]
    refine Bitmap.mk.injEq _ _ _ _ _ _ ▸ ?_
    exact ⟨rfl, rfl, convertRGB_mode bm⟩
  · rw [not_or]
    exact ⟨Nat.not_lt.mpr hmw, Nat.not_lt.mpr hpos⟩

/-- C1 (witness for the amended theorem) at the 3×1 bitmap with
maxWidth 5. -/
theorem normalize_scales_witness :
    ∃ b, normalize ⟨3, 1, "RGB"⟩ 5 = Except.ok b ∧ b.width = 5 ∧
      b.height = 1 * 5 / 3 :=
  normalize_scales ⟨3, 1, "RGB"⟩ 5 (by decide) (by decide) (by decide) (by decide)

/-- C2 (counterexample): the 1152×800 input with maxWidth 576 is normalized
to 576×400 (since 800 * 576 / 1152 = 400), not to the claimed 576×556. -/
theorem scenario1_counterexample :
    normalize ⟨1152, 800, "RGB"⟩ 576 = Except.ok ⟨576, 400, "RGB"⟩ ∧
    800 * 576 / 1152 = 400 ∧ (400 : Nat) ≠ 556 :=
  ⟨rfl, by norm_num, by decide⟩

/-- C2 (amended): the 1152×800 input with maxWidth 576 is normalized to
576×400. -/
theorem scenario1_amended :
    normalize ⟨1152, 800, "RGB"⟩ 576 = Except.ok ⟨576, 400, "RGB"⟩ := rfl

/-- C5 (counterexample): a 576×0 bitmap already at the target width passes
through normalize unchanged instead of being rejected with an error. -/
theorem zero_dims_counterexample :
    normalize ⟨576, 0, "RGB"⟩ 576 = Except.ok ⟨576, 0, "RGB"⟩ ∧
    normalize ⟨576, 0, "RGB"⟩ 576 ≠ Except.error PrintError.zeroDivisionError ∧
    normalize ⟨576, 0, "RGB"⟩ 576 ≠ Except.error PrintError.resizeValueError :=
  ⟨rfl, by rw [show normalize ⟨576, 0, "RGB"⟩ 576 = Except.ok ⟨576, 0, "RGB"⟩ from rfl]; simp,
    by rw [show normalize ⟨576, 0, "RGB"⟩ 576 = Except.ok ⟨576, 0, "RGB"⟩ from rfl]; simp⟩

/-- C5 (amended): a zero-dimension bitmap is rejected by normalize when its
width differs from maxWidth — zero width raises `ZeroDivisionError` at the
ratio computation, zero height makes the computed resize height 0 and
`Image.resize` raise `ValueError`. -/
theorem normalize_rejects_zero_dims (bm : Bitmap) (mw : Nat) (_hmw : 0 < mw)
    (hne : bm.width ≠ mw) (hz : bm.width = 0 ∨ bm.height = 0) :
    ∃ e, normalize bm mw = Except.error e := by
  unfold normalize pyResize
  simp only [convertRGB_width, convertRGB_height]
  rw [if_pos hne]
  rcases hz with hz | hz
  · exact ⟨PrintError.zeroDivisionError, by rw [if_pos hz]⟩
  · rcases Nat.eq_zero_or_pos bm.width with hw | hw
    · exact ⟨PrintError.zeroDivisionError, by rw [if_pos hw]⟩
    · refine ⟨PrintError.resizeValueError, ?_⟩
      rw [if_neg hw.ne', if_pos]
      right
      rw [hz]
      simp

/-- C5 (witness for the amended theorem) at the 0×5 bitmap with
maxWidth 576. -/
theorem normalize_rejects_zero_dims_witness :
    ∃ e, normalize ⟨0, 5, "RGB"⟩ 576 = Except.error e :=
  normalize_rejects_zero_dims ⟨0, 5, "RGB"⟩ 576 (by decide) (by decide) (Or.inl rfl)

/-- C8: normalize is idempotent — running it a second time with the same
maxWidth changes nothing, and an input already at the target width keeps
its dimensions. -/
theorem normalize_idempotent (bm : Bitmap) (mw : Nat) (_hmw : 0 < mw) :
    (normalize bm mw).bind (fun b => normalize b mw) = normalize bm mw ∧
    (bm.width = mw → ∃ b, normalize bm mw = Except.ok b ∧
      b.width = bm.width ∧ b.height = bm.height) := by
  constructor
  · cases hn : normalize bm mw with
    | error e => rfl
    | ok b =>
      have hinv := normalize_ok_inv bm mw b hn
      show normalize b mw = Except.ok b
      exact normalize_fixed b mw hinv.1 hinv.2
  · intro h
    refine ⟨convertRGB bm, ?_, convertRGB_width bm, convertRGB_height bm⟩
    unfold normalize
    simp only []
    rw [if_neg]
    rw [convertRGB_width, h]
    simp

/-- C8 (witness) at a 576×100 RGB bitmap with maxWidth 576. -/
theorem normalize_idempotent_witness :
    (normalize ⟨576, 100, "RGB"⟩ 576).bind (fun b => normalize b 576) =
      normalize ⟨576, 100, "RGB"⟩ 576 ∧
    ((Bitmap.mk 576 100 "RGB").width = 576 →
      ∃ b, normalize ⟨576, 100, "RGB"⟩ 576 = Except.ok b ∧
        b.width = (Bitmap.mk 576 100 "RGB").width ∧
        b.height = (Bitmap.mk 576 100 "RGB").height) :=
  normalize_idempotent ⟨576, 100, "RGB"⟩ 576 (by decide)

/-! ### Session claim theorems -/

/-- An environment in which the file exists, the image decodes at the
target width, the connection succeeds with the requested profile, and then
the very first socket write (`printer.image`) fails. -/
def envWriteFail : Env := ⟨true, true, ⟨576, 100, "RGB"⟩, true, true, false, true, true, 576⟩

/-- C4: when the raster write fails after a successful connect, the
function returns `False` with the socket opened but never closed —
`printer.close()` is only reached on the all-success path, so the socket
is not released on this exit path. -/
theorem socket_not_closed_on_write_failure :
    (printImageToNetworkPrinter envWriteFail).2 = false ∧
    Event.socketOpen ∈ (printImageToNetworkPrinter envWriteFail).1 ∧
    Event.socketClose ∉ (printImageToNetworkPrinter envWriteFail).1 := by
  refine ⟨rfl, ?_, ?_⟩ <;>
    rw [show (printImageToNetworkPrinter envWriteFail).1 =
      [Event.existsCheck, Event.imageOpen, Event.socketOpen] from rfl] <;>
    decide

/-- C6: when the image path is missing (the existence check fails) or
unreadable (the path exists but `Image.open` raises, caught by the generic
handler), the function returns `False`, the process exits with code 1, and
no socket is ever opened. -/
theorem missing_file_no_connection (env : Env)
    (h : env.fileExists = false ∨ env.openOk = false) :
    (printImageToNetworkPrinter env).2 = false ∧
    mainExitCode env = 1 ∧
    Event.socketOpen ∉ (printImageToNetworkPrinter env).1 := by
  unfold mainExitCode printImageToNetworkPrinter
  rcases h with h | h
  · rw [h]
    simp
  · cases hf : env.fileExists with
    | false => simp
    | true =>
      rw [h]
      simp

/-- C6 (witness) at two concrete environments: one with a missing file,
one with an existing but unreadable file. -/
theorem missing_file_no_connection_witness :
    ((printImageToNetworkPrinter ⟨false, true, ⟨576, 100, "RGB"⟩, true, true, true, true, true, 576⟩).2 = false ∧
      mainExitCode ⟨false, true, ⟨576, 100, "RGB"⟩, true, true, true, true, true, 576⟩ = 1 ∧
      Event.socketOpen ∉
        (printImageToNetworkPrinter ⟨false, true, ⟨576, 100, "RGB"⟩, true, true, true, true, true, 576⟩).1) ∧
    ((printImageToNetworkPrinter ⟨true, false, ⟨576, 100, "RGB"⟩, true, true, true, true, true, 576⟩).2 = false ∧
      mainExitCode ⟨true, false, ⟨576, 100, "RGB"⟩, true, true, true, true, true, 576⟩ = 1 ∧
      Event.socketOpen ∉
        (printImageToNetworkPrinter ⟨true, false, ⟨576, 100, "RGB"⟩, true, true, true, true, true, 576⟩).1) :=
  ⟨missing_file_no_connection ⟨false, true, ⟨576, 100, "RGB"⟩, true, true, true, true, true, 576⟩
      (Or.inl rfl),
    missing_file_no_connection ⟨true, false, ⟨576, 100, "RGB"⟩, true, true, true, true, true, 576⟩
      (Or.inr rfl)⟩

/-- C7: with an unrecognized profile but an otherwise healthy session, the
warning is printed, a connection is still opened without the profile, the
print succeeds and the process exits with code 0. -/
theorem unknown_profile_fallback (env : Env) (b : Bitmap)
    (hp : env.profileKnown = false) (hf : env.fileExists = true)
    (ho : env.openOk = true)
    (hn : normalize env.bitmap env.maxWidth = Except.ok b)
    (hc : env.connectOk = true) (h1 : env.writeRasterOk = true)
    (h2 : env.writeLnOk = true) (h3 : env.writeCutOk = true) :
    Event.profileWarning ∈ (printImageToNetworkPrinter env).1 ∧
    Event.socketOpen ∈ (printImageToNetworkPrinter env).1 ∧
    (printImageToNetworkPrinter env).2 = true ∧
    mainExitCode env = 0 := by
  unfold mainExitCode printImageToNetworkPrinter connectPrinter
  rw [hf, ho, hn, hp, hc, h1, h2, h3]
  simp

/-- C7 (witness) at a concrete healthy environment whose profile is
unknown. -/
theorem unknown_profile_fallback_witness :
    Event.profileWarning ∈
      (printImageToNetworkPrinter ⟨true, true, ⟨576, 100, "RGB"⟩, false, true, true, true, true, 576⟩).1 ∧
    Event.socketOpen ∈
      (printImageToNetworkPrinter ⟨true, true, ⟨576, 100, "RGB"⟩, false, true, true, true, true, 576⟩).1 ∧
    (printImageToNetworkPrinter ⟨true, true, ⟨576, 100, "RGB"⟩, false, true, true, true, true, 576⟩).2 = true ∧
    mainExitCode ⟨true, true, ⟨576, 100, "RGB"⟩, false, true, true, true, true, 576⟩ = 0 :=
  unknown_profile_fallback ⟨true, true, ⟨576, 100, "RGB"⟩, false, true, true, true, true, 576⟩
    ⟨576, 100, "RGB"⟩ rfl rfl rfl rfl rfl rfl rfl rfl

/-- C9: on a successful session the payload writes to the socket are
exactly the raster command, then the line feed, then the cut, in that
order and nothing else. -/
theorem writes_in_order (env : Env) (b : Bitmap)
    (hf : env.fileExists = true) (ho : env.openOk = true)
    (hn : normalize env.bitmap env.maxWidth = Except.ok b)
    (hc : env.connectOk = true) (h1 : env.writeRasterOk = true)
    (h2 : env.writeLnOk = true) (h3 : env.writeCutOk = true) :
    (printImageToNetworkPrinter env).2 = true ∧
    (printImageToNetworkPrinter env).1.filter isWrite =
      [Event.writeRaster, Event.writeLn, Event.writeCut] := by
  unfold printImageToNetworkPrinter connectPrinter
  rw [hf, ho, hn, hc, h1, h2, h3]
  cases hpk : env.profileKnown <;> simp [isWrite]

/-- C9 (witness) at a concrete all-success environment. -/
theorem writes_in_order_witness :
    (printImageToNetworkPrinter ⟨true, true, ⟨576, 100, "RGB"⟩, true, true, true, true, true, 576⟩).2 = true ∧
    (printImageToNetworkPrinter ⟨true, true, ⟨576, 100, "RGB"⟩, true, true, true, true, true, 576⟩).1.filter isWrite =
      [Event.writeRaster, Event.writeLn, Event.writeCut] :=
  writes_in_order ⟨true, true, ⟨576, 100, "RGB"⟩, true, true, true, true, true, 576⟩
    ⟨576, 100, "RGB"⟩ rfl rfl rfl rfl rfl rfl rfl

/-- C10: the function is a total Boolean-valued map on every environment —
every modelled exception is caught inside it — and it returns `True`
exactly when every step of the session succeeds, `False` otherwise. -/
theorem returns_bool_never_raises (env : Env) :
    (printImageToNetworkPrinter env).2 = true ↔
      env.fileExists = true ∧ env.openOk = true ∧
      (∃ b, normalize env.bitmap env.maxWidth = Except.ok b) ∧
      env.connectOk = true ∧ env.writeRasterOk = true ∧
      env.writeLnOk = true ∧ env.writeCutOk = true := by
  unfold printImageToNetworkPrinter connectPrinter
  cases hf : env.fileExists <;> cases ho : env.openOk <;>
    cases hn : normalize env.bitmap env.maxWidth <;>
    cases hc : env.connectOk <;> cases hpk : env.profileKnown <;>
    cases h1 : env.writeRasterOk <;> cases h2 : env.writeLnOk <;>
    cases h3 : env.writeCutOk <;> simp

/-! ### Encoder claim theorem -/

theorem length_flatMap_const {α β : Type} (l : List α) (f : α → List β) (k : Nat)
    (h : ∀ a ∈ l, (f a).length = k) : (l.flatMap f).length = l.length * k := by
  induction l with
  | nil => simp
  | cons a t ih =>
    rw [List.flatMap_cons, List.length_append, h a (List.mem_cons_self a t),
      ih (fun x hx => h x (List.mem_cons_of_mem a hx)), List.length_cons]
    ring

theorem packRow_length (bm : MonoBitmap) (y : Nat) :
    (packRow bm y).length = packedRowWidth bm.width := by
  simp [packRow]

/-- C3: on every bitmap within the protocol's bounds the encoder succeeds
and its output length is exactly header length + 4 + ceil(width/8) ×
height; being a pure function of the bitmap, the output is the same on
every evaluation at the same input. -/
theorem encode_length (bm : MonoBitmap) (hw : 0 < bm.width) (hh : 0 < bm.height)
    (hwc : packedRowWidth bm.width ≤ 65535) (hhc : bm.height ≤ 65535) :
    ∃ out, encode bm = Except.ok out ∧
      out.length = rasterHeader.length + 4 + (bm.width + 7) / 8 * bm.height := by
  rw [encode, if_neg (by rw [not_or]; exact ⟨hw.ne', hh.ne'⟩),
    if_neg (by rw [not_or]; exact ⟨Nat.not_lt.mpr hwc, Nat.not_lt.mpr hhc⟩)]
  refine ⟨_, rfl, ?_⟩
  rw [List.length_append, List.length_append,
    length_flatMap_const (List.range bm.height) (packRow bm) (packedRowWidth bm.width)
      (fun y _ => packRow_length bm y), List.length_range]
  show rasterHeader.length + 4 + bm.height * packedRowWidth bm.width =
    rasterHeader.length + 4 + (bm.width + 7) / 8 * bm.height
  rw [packedRowWidth, Nat.mul_comm]

/-- C3 (witness) at an all-dark 8×2 bitmap. -/
theorem encode_length_witness :
    ∃ out, encode ⟨8, 2, fun _ _ => true⟩ = Except.ok out ∧
      out.length = rasterHeader.length + 4 + (8 + 7) / 8 * 2 :=
  encode_length ⟨8, 2, fun _ _ => true⟩ (by decide) (by decide) (by decide) (by decide)

end EscposImg
